import Mathlib

/-!
Shallow embedding of the client-side session layer implemented in
`frontend/src/context/ws-client-provider.tsx` (OpenHands frontend).

The component state held in React refs and `useState` cells is collected in
`SessionState`; each handler of the provider becomes a pure function from
state (and the inbound datum) to a new state together with an `Output`
record of its observable external effects (events forwarded to
`handleAssistantMessage`, timers scheduled via `setTimeout`, transport
emissions, logged errors, error reports shown via `showChatError`).

The `setTimeout` body inside `processMessageQueue` is modelled by
`timerCallback`; letting the timer-driven loop run to completion is
modelled by `fireTimers` with sufficient fuel.
-/

set_option maxHeartbeats 1000000

/-- `WsClientProviderStatus` enum of the provider. -/
inductive WsClientProviderStatus where
  | CONNECTED
  | DISCONNECTED
deriving DecidableEq, Repr

/-- `ReplayStatus` enum of the provider. -/
inductive ReplayStatus where
  | IN_PROGRESS
  | COMPLETED
deriving DecidableEq, Repr

/-- An inbound frame (a JS `Record<string, unknown>`): the fields the
provider inspects, each `Option` because a JS object may lack the key.
All field values the code ever compares are strings, so values are
modelled as `String`. -/
structure Frame where
  id : Option String
  source : Option String
  type : Option String
  timestamp : Option String
  message : Option String
deriving DecidableEq, Repr

/-- Leading digits of a character list (JS `parseInt` consumes these). -/
def jsDigits (cs : List Char) : List Char :=
  cs.takeWhile (fun c => c.isDigit)

/-- Digit list to the number it denotes in base 10. -/
def jsDigitsToNat (cs : List Char) : Nat :=
  cs.foldl (fun acc c => acc * 10 + (c.toNat - 48)) 0

/-- JS `parseInt(s, 10)`: skip leading whitespace, optional sign, then
leading digits; `none` models `NaN` (no digit found). -/
def jsParseIntOfString (s : String) : Option Int :=
  let cs := s.data.dropWhile (fun c => c.isWhitespace)
  match cs with
  | '-' :: rest =>
    let ds := jsDigits rest
    if ds.isEmpty then none else some (-(jsDigitsToNat ds : Int))
  | '+' :: rest =>
    let ds := jsDigits rest
    if ds.isEmpty then none else some ((jsDigitsToNat ds : Int))
  | _ =>
    let ds := jsDigits cs
    if ds.isEmpty then none else some ((jsDigitsToNat ds : Int))

/-- `parseInt(event.id as string, 10)` where the `id` key may be absent
(JS then parses `undefined`, yielding `NaN`, modelled `none`). -/
def jsParseInt (s : Option String) : Option Int :=
  match s with
  | none => none
  | some v => jsParseIntOfString v

/-- `isOpenHandsEvent`: the structural shape check of the provider.  It
requires the keys `id`, `source`, `message`, `timestamp` (note: `message`,
not `type`). -/
def isOpenHandsEvent (event : Frame) : Bool :=
  event.id.isSome && event.source.isSome && event.message.isSome &&
    event.timestamp.isSome

/-- `isUserMessage`. -/
def isUserMessage (event : Frame) : Bool :=
  event.source.isSome && event.type.isSome &&
    event.source == some "user" && event.type == some "message"

/-- `isAssistantMessage`. -/
def isAssistantMessage (event : Frame) : Bool :=
  event.source.isSome && event.type.isSome &&
    event.source == some "agent" && event.type == some "message"

/-- `isMessageAction`. -/
def isMessageAction (event : Frame) : Bool :=
  isUserMessage event || isAssistantMessage event

/-- Validity of a frame in the words of the spec (§4.2 / §3 invariant): a
frame is well-formed when it has `id`, `source`, `type` and `timestamp`.
This is the spec-side definition, kept separate from `isOpenHandsEvent`
(the code-side shape check) so the two can be compared. -/
def specValidFrame (event : Frame) : Bool :=
  event.id.isSome && event.source.isSome && event.type.isSome &&
    event.timestamp.isSome

/-- The value stored in the socket query's `latest_event_id` slot: the
initial connect parameter is the integer `-1`; `handleDisconnect`
overwrites it with `lastEventRef.current?.id`, which is a string id or
`undefined`. -/
inductive QueryCursor where
  | intVal (n : Int)
  | strVal (s : String)
  | undef
deriving DecidableEq, Repr

/-- The part of the socket.io client object the provider mutates: the
query options carrying the resume cursor. -/
structure Sio where
  queryLatestEventId : QueryCursor
deriving DecidableEq, Repr

/-- The provider's state: React `useState` cells (`status`, `events`,
`replayStatus`) and refs (`lastEventRef`, `messageQueueRef`,
`processingQueueRef`, `shouldProcessMessagesRef`, `sioRef`), plus the
rate-monitor window fed by `messageRateHandler.record`. -/
structure SessionState where
  status : WsClientProviderStatus
  events : List Frame
  replayStatus : ReplayStatus
  lastEvent : Option Frame
  messageQueue : List Frame
  processingQueue : Bool
  shouldProcessMessages : Bool
  rateTimes : List Nat
  socket : Option Sio
deriving DecidableEq, Repr

/-- Observable effects of one handler invocation: frames handed to
`handleAssistantMessage`, and whether a `setTimeout` step was scheduled. -/
structure Output where
  forwarded : List Frame
  timerScheduled : Bool
deriving DecidableEq, Repr

/-- No observable effect. -/
def emptyOutput : Output :=
  { forwarded := [], timerScheduled := false }

/-- `processMessageQueue`: the synchronous part of one scheduler step.
Guard: bail out when the session flag is cleared, a step is already in
flight, or the queue is empty (setting `replayStatus` COMPLETED in the
drained case); otherwise mark processing, shift the queue head, append it
to `events`, track it in `lastEventRef` when its id parses as a number,
forward it, and schedule the 1000 ms follow-up timer. -/
def processMessageQueue (st : SessionState) : SessionState × Output :=
  if !st.shouldProcessMessages || st.processingQueue || st.messageQueue.isEmpty then
    let st :=
      if st.messageQueue.isEmpty && !st.processingQueue then
        { st with replayStatus := ReplayStatus.COMPLETED }
      else st
    (st, emptyOutput)
  else
    let st := { st with processingQueue := true }
    match st.messageQueue with
    | [] =>
      ({ st with processingQueue := false, replayStatus := ReplayStatus.COMPLETED },
        emptyOutput)
    | event :: rest =>
      let st := { st with messageQueue := rest, events := st.events ++ [event] }
      let st :=
        if (jsParseInt event.id).isSome then { st with lastEvent := some event } else st
      (st, { forwarded := [event], timerScheduled := true })

/-- The body of the `setTimeout` callback scheduled by
`processMessageQueue`: clear the in-flight flag, stop if the session flag
was cleared, mark COMPLETED when the queue drained, then re-enter
`processMessageQueue`. -/
def timerCallback (st : SessionState) : SessionState × Output :=
  let st := { st with processingQueue := false }
  if !st.shouldProcessMessages then (st, emptyOutput)
  else
    let st :=
      if st.messageQueue.isEmpty then { st with replayStatus := ReplayStatus.COMPLETED }
      else st
    processMessageQueue st

/-- `handleMessage`: record the arrival time for the rate monitor when the
frame passes the shape check and is a user/agent message; on the share
route push it onto the replay queue and kick the scheduler, otherwise
append it to `events`, track `lastEventRef` when its id parses, and hand
it to `handleAssistantMessage`. -/
def handleMessage (isShareRoute : Bool) (now : Nat) (st : SessionState)
    (event : Frame) : SessionState × Output :=
  let st :=
    if isOpenHandsEvent event && isMessageAction event then
      { st with rateTimes := st.rateTimes ++ [now] }
    else st
  if isShareRoute then
    let st := { st with messageQueue := st.messageQueue ++ [event] }
    processMessageQueue st
  else
    let st := { st with events := st.events ++ [event] }
    let st :=
      if (jsParseInt event.id).isSome then { st with lastEvent := some event } else st
    (st, { forwarded := [event], timerScheduled := false })

/-- `skipToResults`: return if the queue is empty; otherwise drain the
whole queue into `events` in one synchronous batch, track the batch's last
frame in `lastEventRef` when its id parses, forward every drained frame,
and mark the replay COMPLETED. -/
def skipToResults (st : SessionState) : SessionState × Output :=
  if st.messageQueue.isEmpty then (st, emptyOutput)
  else
    let st := { st with processingQueue := true }
    let allEvents := st.messageQueue
    let st := { st with messageQueue := [] }
    let st := { st with events := st.events ++ allEvents }
    let st :=
      match allEvents.getLast? with
      | some lastEv =>
        if (jsParseInt lastEv.id).isSome then { st with lastEvent := some lastEv } else st
      | none => st
    let st := { st with replayStatus := ReplayStatus.COMPLETED }
    let st := { st with processingQueue := false }
    (st, { forwarded := allEvents, timerScheduled := false })

/-- The state mutations of `resetReplay` before its tail call to
`processMessageQueue`: set IN_PROGRESS, move the current `events` into the
replay queue, clear `events` and the in-flight flag (the `dispatch` calls
clear external collaborator state, outside this model). -/
def resetReplayState (st : SessionState) : SessionState :=
  { st with
    replayStatus := ReplayStatus.IN_PROGRESS,
    messageQueue := st.events,
    events := [],
    processingQueue := false }

/-- `resetReplay`: the mutations of `resetReplayState` followed by the
synchronous `processMessageQueue()` call that starts redelivery. -/
def resetReplay (st : SessionState) : SessionState × Output :=
  processMessageQueue (resetReplayState st)

/-- Environment driver: fire the pending scheduler timer repeatedly (each
firing runs `timerCallback`), as the event loop does, until no further
timer is scheduled or fuel runs out.  Returns the final state and all
frames forwarded along the way. -/
def fireTimers : Nat → SessionState → SessionState × List Frame
  | 0, st => (st, [])
  | fuel + 1, st =>
    let p := timerCallback st
    if p.2.timerScheduled then
      let q := fireTimers fuel p.1
      (q.1, p.2.forwarded ++ q.2)
    else
      (p.1, p.2.forwarded)

/-- Letting the scheduler's timer-driven loop run to completion from a
state: one `processMessageQueue` kick, then every scheduled timer fires in
turn.  The fuel `queue length + 1` is enough because each firing shifts
one frame. -/
def runSchedulerToCompletion (st : SessionState) : SessionState × List Frame :=
  let p := processMessageQueue st
  if p.2.timerScheduled then
    let q := fireTimers (p.1.messageQueue.length + 1) p.1
    (q.1, p.2.forwarded ++ q.2)
  else
    (p.1, p.2.forwarded)

/-- `resetReplay` then letting the scheduler's timers run to completion. -/
def resetReplayRun (st : SessionState) : SessionState × List Frame :=
  runSchedulerToCompletion (resetReplayState st)

/-- Folding `handleMessage` in LIVE mode (non-share route) over a list of
inbound frames arriving on one connection; collects the forwarded
frames. -/
def liveRun (now : Nat) : SessionState → List Frame → SessionState × List Frame
  | st, [] => (st, [])
  | st, f :: rest =>
    let p := handleMessage false now st f
    let q := liveRun now p.1 rest
    (q.1, p.2.forwarded ++ q.2)

/-- The last frame of a list whose id parses as a number, starting from a
previous value (the `lastEventRef` tracking discipline). -/
def lastNumeric : Option Frame → List Frame → Option Frame
  | acc, [] => acc
  | acc, f :: rest =>
    lastNumeric (if (jsParseInt f.id).isSome then some f else acc) rest

/-- Effects of `send`: events emitted on the transport (with the socket.io
event name) and logged error strings. -/
structure SendOutput where
  emitted : List (String × Frame)
  loggedErrors : List String
deriving DecidableEq, Repr

/-- `send`: log an error and do nothing when no socket is attached,
otherwise emit the event as an `oh_user_action` frame. -/
def send (st : SessionState) (event : Frame) : SessionState × SendOutput :=
  match st.socket with
  | none => (st, { emitted := [], loggedErrors := ["WebSocket is not connected."] })
  | some _ => (st, { emitted := [("oh_user_action", event)], loggedErrors := [] })

/-- `disconnect`: when a socket is attached, detach the listeners, close
the transport (the socket object is dropped from the state), clear the ref
and set DISCONNECTED; when the ref is already cleared, do nothing. -/
def disconnect (st : SessionState) : SessionState :=
  match st.socket with
  | some _ =>
    { st with socket := none, status := WsClientProviderStatus.DISCONNECTED }
  | none => st

/-- `handleConnect`. -/
def handleConnect (st : SessionState) : SessionState :=
  { st with status := WsClientProviderStatus.CONNECTED }

/-- A JS value in a leaf position the error handlers inspect: a string or
anything else. -/
inductive JsLeaf where
  | str (s : String)
  | other
deriving DecidableEq, Repr

/-- The object possibly stored under the error payload's `data` key:
`msg_id` when present, remaining fields opaque. -/
structure ErrDataObj where
  msg_id : Option JsLeaf
  extra : List (String × String)
deriving DecidableEq, Repr

/-- The fields of an error payload object: `message` (absent, string, or
non-string) and `data` (an object, or absent/non-object collapsed to
`none` since the code only reads it behind an object check). -/
structure ErrorArg where
  message : Option JsLeaf
  data : Option ErrDataObj
deriving DecidableEq, Repr

/-- An error payload as delivered by the transport: an object or any
non-object value. -/
inductive ErrorPayload where
  | obj (a : ErrorArg)
  | nonObj
deriving DecidableEq, Repr

/-- The argument record of a `showChatError` call. -/
structure ChatError where
  message : String
  source : String
  metadata : Option ErrDataObj
  msgId : Option String
deriving DecidableEq, Repr

/-- `updateStatusWhenErrorMessagePresent`: when the payload is an object
with a string `message`, suppress "websocket error" and "timeout";
otherwise report via `showChatError`, extracting `msg_id` and metadata
from the payload's `data` object when present (`metadata` `none` models
the empty record default). -/
def updateStatusWhenErrorMessagePresent (data : ErrorPayload) : Option ChatError :=
  match data with
  | ErrorPayload.nonObj => none
  | ErrorPayload.obj a =>
    match a.message with
    | some (JsLeaf.str m) =>
      if m == "websocket error" || m == "timeout" then none
      else
        let msgId :=
          match a.data with
          | some d =>
            match d.msg_id with
            | some (JsLeaf.str s) => some s
            | _ => none
          | none => none
        some { message := m, source := "websocket", metadata := a.data, msgId := msgId }
    | _ => none

/-- `lastEventRef.current?.id` as a query-cursor value: `undefined` when
no frame is tracked or the tracked frame has no id. -/
def cursorFromLastEvent (lastEvent : Option Frame) : QueryCursor :=
  match lastEvent with
  | none => QueryCursor.undef
  | some f =>
    match f.id with
    | none => QueryCursor.undef
    | some s => QueryCursor.strVal s

/-- `handleDisconnect`: set DISCONNECTED; when a socket is attached, write
the resume cursor (`lastEventRef.current?.id`) into the socket query's
`latest_event_id` and run the error-message classifier; when the ref is
cleared, return right after the status change. -/
def handleDisconnect (st : SessionState) (data : ErrorPayload) :
    SessionState × Option ChatError :=
  let st := { st with status := WsClientProviderStatus.DISCONNECTED }
  match st.socket with
  | none => (st, none)
  | some sio =>
    let sio := { sio with queryLatestEventId := cursorFromLastEvent st.lastEvent }
    ({ st with socket := some sio }, updateStatusWhenErrorMessagePresent data)

/-- Effects of `handleError`: the classifier's report, the toast shown for
share-route domain errors, and whether the delayed redirect was
scheduled. -/
structure ErrorOutput where
  report : Option ChatError
  toast : Option String
  navScheduled : Bool
deriving DecidableEq, Repr

/-- `handleError`: set DISCONNECTED, run the error-message classifier,
and on the share route show a toast and schedule a redirect for the two
domain messages.  The socket query is not touched. -/
def handleError (isShareRoute : Bool) (st : SessionState) (data : ErrorPayload) :
    SessionState × ErrorOutput :=
  let st := { st with status := WsClientProviderStatus.DISCONNECTED }
  let report := updateStatusWhenErrorMessagePresent data
  match data with
  | ErrorPayload.obj a =>
    match a.message with
    | some (JsLeaf.str m) =>
      if isShareRoute then
        if m == "Conversation not published" || m == "Conversation not found" then
          (st, { report := report, toast := some "Conversation not published",
                 navScheduled := true })
        else (st, { report := report, toast := none, navScheduled := false })
      else (st, { report := report, toast := none, navScheduled := false })
    | _ => (st, { report := report, toast := none, navScheduled := false })
  | ErrorPayload.nonObj => (st, { report := report, toast := none, navScheduled := false })

/-- The state right after the connection `useEffect` ran for a fresh
conversation: empty log and queue, cleared refs, processing flag armed,
socket created with `latest_event_id: -1`. -/
def initialState : SessionState :=
  { status := WsClientProviderStatus.DISCONNECTED,
    events := [],
    replayStatus := ReplayStatus.IN_PROGRESS,
    lastEvent := none,
    messageQueue := [],
    processingQueue := false,
    shouldProcessMessages := true,
    rateTimes := [],
    socket := some { queryLatestEventId := QueryCursor.intVal (-1) } }

theorem lastNumeric_cons (acc : Option Frame) (f : Frame) (rest : List Frame) :
    lastNumeric acc (f :: rest) =
      lastNumeric (if (jsParseInt f.id).isSome then some f else acc) rest := rfl

theorem processMessageQueue_drained (st : SessionState)
    (hq : st.messageQueue = []) (hpq : st.processingQueue = false) :
    processMessageQueue st =
      ({ st with replayStatus := ReplayStatus.COMPLETED }, emptyOutput) := by
  obtain ⟨s1, s2, s3, s4, s5, s6, s7, s8, s9⟩ := st
  simp only at hq hpq
  subst hq hpq
  simp [processMessageQueue]

theorem processMessageQueue_go (st : SessionState) (e : Frame) (rest : List Frame)
    (hsp : st.shouldProcessMessages = true) (hpq : st.processingQueue = false)
    (hq : st.messageQueue = e :: rest) :
    processMessageQueue st =
      ({ st with
          processingQueue := true,
          messageQueue := rest,
          events := st.events ++ [e],
          lastEvent := if (jsParseInt e.id).isSome then some e else st.lastEvent },
        { forwarded := [e], timerScheduled := true }) := by
  obtain ⟨s1, s2, s3, s4, s5, s6, s7, s8, s9⟩ := st
  simp only at hq hpq hsp
  subst hq hpq hsp
  by_cases hnum : (jsParseInt e.id).isSome <;>
    simp [processMessageQueue, hnum]

theorem timerCallback_stop (st : SessionState)
    (hsp : st.shouldProcessMessages = false) :
    timerCallback st = ({ st with processingQueue := false }, emptyOutput) := by
  obtain ⟨s1, s2, s3, s4, s5, s6, s7, s8, s9⟩ := st
  simp only at hsp
  subst hsp
  simp [timerCallback]

theorem timerCallback_nil (st : SessionState)
    (hsp : st.shouldProcessMessages = true) (hq : st.messageQueue = []) :
    timerCallback st =
      ({ st with processingQueue := false, replayStatus := ReplayStatus.COMPLETED },
        emptyOutput) := by
  obtain ⟨s1, s2, s3, s4, s5, s6, s7, s8, s9⟩ := st
  simp only at hsp hq
  subst hsp hq
  simp [timerCallback, processMessageQueue]

theorem timerCallback_cons (st : SessionState) (e : Frame) (rest : List Frame)
    (hsp : st.shouldProcessMessages = true) (hq : st.messageQueue = e :: rest) :
    timerCallback st =
      ({ st with
          processingQueue := true,
          messageQueue := rest,
          events := st.events ++ [e],
          lastEvent := if (jsParseInt e.id).isSome then some e else st.lastEvent },
        { forwarded := [e], timerScheduled := true }) := by
  obtain ⟨s1, s2, s3, s4, s5, s6, s7, s8, s9⟩ := st
  simp only at hsp hq
  subst hsp hq
  by_cases hnum : (jsParseInt e.id).isSome <;>
    simp [timerCallback, processMessageQueue, hnum]

theorem fireTimers_succ (fuel : Nat) (st : SessionState) :
    fireTimers (fuel + 1) st =
      (let p := timerCallback st
       if p.2.timerScheduled then
         let q := fireTimers fuel p.1
         (q.1, p.2.forwarded ++ q.2)
       else (p.1, p.2.forwarded)) := rfl

theorem fireTimers_drain (n : Nat) :
    ∀ (st : SessionState), st.shouldProcessMessages = true →
      st.messageQueue.length ≤ n →
      fireTimers (n + 1) st =
        ({ st with
            messageQueue := [],
            events := st.events ++ st.messageQueue,
            lastEvent := lastNumeric st.lastEvent st.messageQueue,
            processingQueue := false,
            replayStatus := ReplayStatus.COMPLETED },
          st.messageQueue) := by
  induction n with
  | zero =>
    intro st hsp hlen
    have hq : st.messageQueue = [] := List.length_eq_zero.mp (Nat.le_zero.mp hlen)
    rw [fireTimers_succ, timerCallback_nil st hsp hq]
    simp [hq, lastNumeric, emptyOutput]
  | succ n ih =>
    intro st hsp hlen
    cases hq : st.messageQueue with
    | nil =>
      rw [fireTimers_succ, timerCallback_nil st hsp hq]
      simp [hq, lastNumeric, emptyOutput]
    | cons e rest =>
      rw [fireTimers_succ, timerCallback_cons st e rest hsp hq]
      have hrest : rest.length ≤ n := by
        have := hlen
        rw [hq] at this
        simpa using Nat.succ_le_succ_iff.mp this
      simp only []
      rw [ih _ (by simp [hsp]) (by simpa using hrest)]
      simp [hq, lastNumeric_cons, List.append_assoc]


theorem runScheduler_drain (st : SessionState)
    (hsp : st.shouldProcessMessages = true) (hpq : st.processingQueue = false) :
    runSchedulerToCompletion st =
      ({ st with
          messageQueue := [],
          events := st.events ++ st.messageQueue,
          lastEvent := lastNumeric st.lastEvent st.messageQueue,
          processingQueue := false,
          replayStatus := ReplayStatus.COMPLETED },
        st.messageQueue) := by
  cases hq : st.messageQueue with
  | nil =>
    unfold runSchedulerToCompletion
    rw [processMessageQueue_drained st hq hpq]
    simp [hq, lastNumeric, emptyOutput, hpq]
  | cons e rest =>
    unfold runSchedulerToCompletion
    rw [processMessageQueue_go st e rest hsp hpq hq]
    simp only [List.length_cons]
    rw [fireTimers_drain rest.length _ (by simp [hsp]) (by simp)]
    simp [hq, lastNumeric_cons, List.append_assoc]

theorem handleMessage_live (now : Nat) (st : SessionState) (event : Frame) :
    (handleMessage false now st event).1.events = st.events ++ [event] ∧
    (handleMessage false now st event).1.lastEvent =
      (if (jsParseInt event.id).isSome then some event else st.lastEvent) ∧
    (handleMessage false now st event).2 =
      { forwarded := [event], timerScheduled := false } := by
  by_cases hr : (isOpenHandsEvent event && isMessageAction event) = true <;>
    by_cases hnum : (jsParseInt event.id).isSome <;>
      simp [handleMessage, hr, hnum]

theorem liveRun_appends (now : Nat) :
    ∀ (frames : List Frame) (st : SessionState),
      (liveRun now st frames).1.events = st.events ++ frames ∧
      (liveRun now st frames).1.lastEvent = lastNumeric st.lastEvent frames ∧
      (liveRun now st frames).2 = frames := by
  intro frames
  induction frames with
  | nil => intro st; simp [liveRun, lastNumeric]
  | cons f rest ih =>
    intro st
    have hm := handleMessage_live now st f
    have hrec := ih (handleMessage false now st f).1
    refine ⟨?_, ?_, ?_⟩
    · rw [show (liveRun now st (f :: rest)).1 = (liveRun now (handleMessage false now st f).1 rest).1 from rfl]
      rw [hrec.1, hm.1, List.append_assoc]
      rfl
    · rw [show (liveRun now st (f :: rest)).1 = (liveRun now (handleMessage false now st f).1 rest).1 from rfl]
      rw [hrec.2.1, hm.2.1, lastNumeric_cons]
    · rw [show (liveRun now st (f :: rest)).2 =
          (handleMessage false now st f).2.forwarded ++ (liveRun now (handleMessage false now st f).1 rest).2 from rfl]
      rw [hrec.2.2, hm.2.2]
      rfl

theorem skipToResults_noop (st : SessionState) (hq : st.messageQueue = []) :
    skipToResults st = (st, emptyOutput) := by
  simp [skipToResults, hq]

theorem skipToResults_go (st : SessionState) (hne : st.messageQueue ≠ []) :
    (skipToResults st).1.events = st.events ++ st.messageQueue ∧
    (skipToResults st).1.replayStatus = ReplayStatus.COMPLETED ∧
    (skipToResults st).1.messageQueue = [] ∧
    (skipToResults st).2.forwarded = st.messageQueue ∧
    (skipToResults st).2.timerScheduled = false := by
  have hne' : st.messageQueue.isEmpty = false := by
    cases h : st.messageQueue with
    | nil => exact absurd h hne
    | cons e rest => rfl
  unfold skipToResults
  rw [hne']
  cases hlast : st.messageQueue.getLast? with
  | none => simp [hlast]
  | some lastEv =>
    by_cases hnum : (jsParseInt lastEv.id).isSome <;> simp [hlast, hnum]

theorem handleError_state (route : Bool) (st : SessionState) (data : ErrorPayload) :
    (handleError route st data).1 =
      { st with status := WsClientProviderStatus.DISCONNECTED } := by
  unfold handleError
  cases data with
  | nonObj => rfl
  | obj a =>
    obtain ⟨msg, dat⟩ := a
    cases msg with
    | none => rfl
    | some l =>
      cases l with
      | other => rfl
      | str m =>
        dsimp only
        split
        · split <;> rfl
        · rfl

/-- A well-formed user message frame (id "1"). -/
def sampleUserFrame : Frame :=
  { id := some "1", source := some "user", type := some "message",
    timestamp := some "2025-01-01T00:00:00Z", message := some "hello" }

/-- A well-formed agent message frame (id "2"). -/
def sampleAgentFrame : Frame :=
  { id := some "2", source := some "agent", type := some "message",
    timestamp := some "2025-01-01T00:00:01Z", message := some "hi" }

/-- A frame lacking the `timestamp` key (malformed by the spec's shape rule). -/
def sampleNoTimestampFrame : Frame :=
  { id := some "3", source := some "agent", type := some "message",
    timestamp := none, message := some "late" }

/-- Claim C1 (amended): in LIVE mode the facade appends every inbound
frame of the connection to `events` in arrival order — no validation
filter is applied on this path — and `lastEventRef` (the resume cursor)
tracks the last frame whose id parses as a number. -/
theorem c1_corrected_live_log (now : Nat) (frames : List Frame)
    (st : SessionState) (hev : st.events = []) (hle : st.lastEvent = none) :
    (liveRun now st frames).1.events = frames ∧
    (liveRun now st frames).1.lastEvent = lastNumeric none frames ∧
    (liveRun now st frames).2 = frames := by
  have h := liveRun_appends now frames st
  rw [hev] at h
  rw [hle] at h
  simpa using h

/-- Witness for C1 at a concrete two-frame arrival sequence. -/
theorem c1_witness :
    (liveRun 0 initialState [sampleUserFrame, sampleAgentFrame]).1.events =
      [sampleUserFrame, sampleAgentFrame] ∧
    (liveRun 0 initialState [sampleUserFrame, sampleAgentFrame]).1.lastEvent =
      lastNumeric none [sampleUserFrame, sampleAgentFrame] ∧
    (liveRun 0 initialState [sampleUserFrame, sampleAgentFrame]).2 =
      [sampleUserFrame, sampleAgentFrame] :=
  c1_corrected_live_log 0 [sampleUserFrame, sampleAgentFrame] initialState rfl rfl

/-- Counterexample to C1 as stated: a frame missing `timestamp` is not
successfully validated, yet it lands in `events`; the log therefore
differs from the subsequence of validated frames. -/
theorem c1_counterexample :
    specValidFrame sampleNoTimestampFrame = false ∧
    (liveRun 0 initialState [sampleNoTimestampFrame]).1.events =
      [sampleNoTimestampFrame] ∧
    (liveRun 0 initialState [sampleNoTimestampFrame]).1.events ≠
      List.filter (fun f => specValidFrame f) [sampleNoTimestampFrame] := by
  refine ⟨rfl, rfl, ?_⟩
  decide

/-- Claim C2 (amended): ingestion rejects nothing on the LIVE path — every
inbound frame is appended to `events` even when it lacks one of `id`,
`source`, `type`, `timestamp`; the shape check `isOpenHandsEvent` (which
requires `message`, not `type`) only gates rate-monitor recording, so the
log does not carry the minimum-field invariant. -/
theorem c2_corrected_no_rejection (now : Nat) (st : SessionState)
    (event : Frame) ( _hbad : specValidFrame event = false) :
    (handleMessage false now st event).1.events = st.events ++ [event] ∧
    (handleMessage false now st event).2.forwarded = [event] := by
  have h := handleMessage_live now st event
  exact ⟨h.1, by rw [h.2.2]⟩

/-- Witness for C2 at the concrete timestamp-less frame. -/
theorem c2_witness :
    (handleMessage false 0 initialState sampleNoTimestampFrame).1.events =
      initialState.events ++ [sampleNoTimestampFrame] ∧
    (handleMessage false 0 initialState sampleNoTimestampFrame).2.forwarded =
      [sampleNoTimestampFrame] :=
  c2_corrected_no_rejection 0 initialState sampleNoTimestampFrame rfl

/-- Counterexample to C2 as stated: the frame missing `timestamp` appears
in `events` after ingestion, so the rejection invariant fails. -/
theorem c2_counterexample :
    sampleNoTimestampFrame.timestamp = none ∧
    (handleMessage false 0 initialState sampleNoTimestampFrame).1.events =
      [sampleNoTimestampFrame] := by
  exact ⟨rfl, rfl⟩

/-- Claim C3: on a non-empty replay queue (with the session flag armed and
no step in flight), `skipToResults` produces the same final `events` — the
prior log followed by the whole queue — and the same forwarded frames as
letting the timer-driven scheduler loop run to completion, and it marks the
replay COMPLETED in its single synchronous step. -/
theorem c3_skip_equals_scheduler_run (st : SessionState)
    (hne : st.messageQueue ≠ [])
    (hsp : st.shouldProcessMessages = true)
    (hpq : st.processingQueue = false) :
    (skipToResults st).1.events = (runSchedulerToCompletion st).1.events ∧
    (skipToResults st).1.events = st.events ++ st.messageQueue ∧
    (skipToResults st).2.forwarded = (runSchedulerToCompletion st).2 ∧
    (skipToResults st).1.replayStatus = ReplayStatus.COMPLETED ∧
    (runSchedulerToCompletion st).1.replayStatus = ReplayStatus.COMPLETED := by
  have hskip := skipToResults_go st hne
  rw [runScheduler_drain st hsp hpq]
  exact ⟨by rw [hskip.1], hskip.1, hskip.2.2.2.1, hskip.2.1, rfl⟩

/-- Witness for C3 at a concrete two-frame replay queue. -/
theorem c3_witness :
    (skipToResults { initialState with
        messageQueue := [sampleUserFrame, sampleAgentFrame] }).1.events =
      (runSchedulerToCompletion { initialState with
        messageQueue := [sampleUserFrame, sampleAgentFrame] }).1.events ∧
    (skipToResults { initialState with
        messageQueue := [sampleUserFrame, sampleAgentFrame] }).1.events =
      initialState.events ++ [sampleUserFrame, sampleAgentFrame] ∧
    (skipToResults { initialState with
        messageQueue := [sampleUserFrame, sampleAgentFrame] }).2.forwarded =
      (runSchedulerToCompletion { initialState with
        messageQueue := [sampleUserFrame, sampleAgentFrame] }).2 ∧
    (skipToResults { initialState with
        messageQueue := [sampleUserFrame, sampleAgentFrame] }).1.replayStatus =
      ReplayStatus.COMPLETED ∧
    (runSchedulerToCompletion { initialState with
        messageQueue := [sampleUserFrame, sampleAgentFrame] }).1.replayStatus =
      ReplayStatus.COMPLETED :=
  c3_skip_equals_scheduler_run
    { initialState with messageQueue := [sampleUserFrame, sampleAgentFrame] }
    (by decide) rfl rfl

/-- Claim C4: after a COMPLETED replay with log `st.events`, `resetReplay`
re-seeds the replay queue with exactly that log, clears the log, sets
IN_PROGRESS, and letting the scheduler run to completion reproduces the
log in the same order, COMPLETED again.  (`resetReplay` itself performs
the seeding followed by the first synchronous `processMessageQueue`
kick.) -/
theorem c4_reset_replay_reproduces (st : SessionState)
    (hsp : st.shouldProcessMessages = true)
    ( _hrs : st.replayStatus = ReplayStatus.COMPLETED) :
    resetReplay st = processMessageQueue (resetReplayState st) ∧
    (resetReplayState st).messageQueue = st.events ∧
    (resetReplayState st).events = [] ∧
    (resetReplayState st).replayStatus = ReplayStatus.IN_PROGRESS ∧
    (resetReplayRun st).1.events = st.events ∧
    (resetReplayRun st).1.replayStatus = ReplayStatus.COMPLETED ∧
    (resetReplayRun st).2 = st.events := by
  refine ⟨rfl, rfl, rfl, rfl, ?_, ?_, ?_⟩ <;>
    (unfold resetReplayRun
     rw [runScheduler_drain (resetReplayState st) (by simpa [resetReplayState] using hsp) rfl]
     try simp [resetReplayState])

/-- Witness for C4 at a concrete completed session with a two-event log. -/
theorem c4_witness :
    resetReplay { initialState with
        events := [sampleUserFrame, sampleAgentFrame],
        replayStatus := ReplayStatus.COMPLETED } =
      processMessageQueue (resetReplayState { initialState with
        events := [sampleUserFrame, sampleAgentFrame],
        replayStatus := ReplayStatus.COMPLETED }) ∧
    (resetReplayState { initialState with
        events := [sampleUserFrame, sampleAgentFrame],
        replayStatus := ReplayStatus.COMPLETED }).messageQueue =
      [sampleUserFrame, sampleAgentFrame] ∧
    (resetReplayState { initialState with
        events := [sampleUserFrame, sampleAgentFrame],
        replayStatus := ReplayStatus.COMPLETED }).events = [] ∧
    (resetReplayState { initialState with
        events := [sampleUserFrame, sampleAgentFrame],
        replayStatus := ReplayStatus.COMPLETED }).replayStatus =
      ReplayStatus.IN_PROGRESS ∧
    (resetReplayRun { initialState with
        events := [sampleUserFrame, sampleAgentFrame],
        replayStatus := ReplayStatus.COMPLETED }).1.events =
      [sampleUserFrame, sampleAgentFrame] ∧
    (resetReplayRun { initialState with
        events := [sampleUserFrame, sampleAgentFrame],
        replayStatus := ReplayStatus.COMPLETED }).1.replayStatus =
      ReplayStatus.COMPLETED ∧
    (resetReplayRun { initialState with
        events := [sampleUserFrame, sampleAgentFrame],
        replayStatus := ReplayStatus.COMPLETED }).2 =
      [sampleUserFrame, sampleAgentFrame] :=
  c4_reset_replay_reproduces
    { initialState with
        events := [sampleUserFrame, sampleAgentFrame],
        replayStatus := ReplayStatus.COMPLETED } rfl rfl

/-- Claim C5 (amended): on a transport `disconnect` signal the handler
sets DISCONNECTED and, when a socket is attached, captures the resume
cursor (`lastEventRef.current?.id`) into the channel's `latest_event_id`
query parameter; on a transport `error` signal the handler sets
DISCONNECTED and classifies the payload but leaves the socket's
`latest_event_id` untouched. -/
theorem c5_corrected_cursor_capture (st : SessionState) (data : ErrorPayload)
    (route : Bool) (sio : Sio) (hs : st.socket = some sio) :
    (handleDisconnect st data).1.status = WsClientProviderStatus.DISCONNECTED ∧
    (handleDisconnect st data).1.socket =
      some { sio with queryLatestEventId := cursorFromLastEvent st.lastEvent } ∧
    (handleError route st data).1.status = WsClientProviderStatus.DISCONNECTED ∧
    (handleError route st data).1.socket = st.socket := by
  refine ⟨?_, ?_, ?_, ?_⟩
  · unfold handleDisconnect
    simp [hs]
  · unfold handleDisconnect
    simp [hs]
  · rw [handleError_state]
  · rw [handleError_state]

/-- A session state that has delivered the agent frame (id "2") and still
carries the connect-time cursor `-1` in the socket query. -/
def trackedState : SessionState :=
  { initialState with lastEvent := some sampleAgentFrame }

/-- A transport "timeout" error payload. -/
def timeoutPayload : ErrorPayload :=
  ErrorPayload.obj { message := some (JsLeaf.str "timeout"), data := none }

/-- Witness for C5 at a concrete connected state with a tracked frame. -/
theorem c5_witness :
    (handleDisconnect trackedState ErrorPayload.nonObj).1.status =
      WsClientProviderStatus.DISCONNECTED ∧
    (handleDisconnect trackedState ErrorPayload.nonObj).1.socket =
      some { queryLatestEventId := cursorFromLastEvent trackedState.lastEvent } ∧
    (handleError false trackedState ErrorPayload.nonObj).1.status =
      WsClientProviderStatus.DISCONNECTED ∧
    (handleError false trackedState ErrorPayload.nonObj).1.socket =
      trackedState.socket :=
  c5_corrected_cursor_capture trackedState ErrorPayload.nonObj false
    { queryLatestEventId := QueryCursor.intVal (-1) } rfl

/-- Counterexample to C5 as stated: after a "timeout" transport error the
socket's `latest_event_id` still holds the connect-time value `-1`, not
the current resume cursor (id "2"), so `handleError` does not capture the
cursor. -/
theorem c5_counterexample :
    cursorFromLastEvent trackedState.lastEvent = QueryCursor.strVal "2" ∧
    (handleError false trackedState timeoutPayload).1.socket =
      some { queryLatestEventId := QueryCursor.intVal (-1) } ∧
    QueryCursor.intVal (-1) ≠ QueryCursor.strVal "2" := by
  exact ⟨rfl, rfl, by decide⟩

/-- Claim C6: once the session-scoped flag `shouldProcessMessagesRef` is
cleared, a replay timer callback that fires delivers nothing: `events`,
the queue and the cursor are untouched, no frame is forwarded, and no
further step is scheduled (only the in-flight flag is cleared). -/
theorem c6_cancelled_timer_noop (st : SessionState)
    (hsp : st.shouldProcessMessages = false) :
    (timerCallback st).1.events = st.events ∧
    (timerCallback st).1.messageQueue = st.messageQueue ∧
    (timerCallback st).1.lastEvent = st.lastEvent ∧
    (timerCallback st).1.replayStatus = st.replayStatus ∧
    (timerCallback st).2.forwarded = [] ∧
    (timerCallback st).2.timerScheduled = false := by
  rw [timerCallback_stop st hsp]
  exact ⟨rfl, rfl, rfl, rfl, rfl, rfl⟩

/-- A torn-down session: flag cleared, one frame still queued, a timer in
flight. -/
def cancelledState : SessionState :=
  { initialState with
      shouldProcessMessages := false,
      messageQueue := [sampleUserFrame],
      processingQueue := true }

/-- Witness for C6: a cleared session with a queued frame and a pending
timer delivers nothing when the timer fires. -/
theorem c6_witness :
    (timerCallback cancelledState).1.events = cancelledState.events ∧
    (timerCallback cancelledState).1.messageQueue = cancelledState.messageQueue ∧
    (timerCallback cancelledState).1.lastEvent = cancelledState.lastEvent ∧
    (timerCallback cancelledState).1.replayStatus = cancelledState.replayStatus ∧
    (timerCallback cancelledState).2.forwarded = [] ∧
    (timerCallback cancelledState).2.timerScheduled = false :=
  c6_cancelled_timer_noop cancelledState rfl

/-- Claim C7 (amended): `skipToResults` with an empty replay queue is a
complete no-op — state identical, nothing forwarded, no timer — regardless
of mode; `resetReplay`, however, is unguarded: its seeding step always
moves the whole current `events` log into the replay queue, clears the
log, and sets IN_PROGRESS before kicking the scheduler. -/
theorem c7_corrected_guards (st : SessionState) (hq : st.messageQueue = []) :
    skipToResults st = (st, emptyOutput) ∧
    (resetReplayState st).replayStatus = ReplayStatus.IN_PROGRESS ∧
    (resetReplayState st).messageQueue = st.events ∧
    (resetReplayState st).events = [] := by
  exact ⟨skipToResults_noop st hq, rfl, rfl, rfl⟩

/-- A COMPLETED session holding one delivered event and an empty replay
queue. -/
def completedState : SessionState :=
  { initialState with
      events := [sampleUserFrame],
      replayStatus := ReplayStatus.COMPLETED }

/-- Witness for C7 at the concrete COMPLETED session. -/
theorem c7_witness :
    skipToResults completedState = (completedState, emptyOutput) ∧
    (resetReplayState completedState).replayStatus = ReplayStatus.IN_PROGRESS ∧
    (resetReplayState completedState).messageQueue = completedState.events ∧
    (resetReplayState completedState).events = [] :=
  c7_corrected_guards completedState rfl

/-- Counterexample to C7 as stated: on the COMPLETED session with an
empty replay queue, `resetReplay` is not a no-op — it flips `replayStatus`
back to IN_PROGRESS and re-forwards the logged event. -/
theorem c7_counterexample :
    completedState.messageQueue = [] ∧
    (resetReplay completedState).1.replayStatus = ReplayStatus.IN_PROGRESS ∧
    (resetReplay completedState).1.replayStatus ≠ completedState.replayStatus ∧
    (resetReplay completedState).2.forwarded = [sampleUserFrame] := by
  exact ⟨rfl, rfl, by decide, rfl⟩

/-- Claim C8: `send` on a session whose socket ref is cleared is a
non-fatal no-op — the state is unchanged, nothing is emitted on the
transport, and the condition is logged (`send` is total, so no exception
reaches the caller). -/
theorem c8_send_disconnected_noop (st : SessionState) (event : Frame)
    (hs : st.socket = none) :
    send st event =
      (st, { emitted := [], loggedErrors := ["WebSocket is not connected."] }) := by
  simp [send, hs]

/-- A session whose socket ref has been cleared. -/
def noSocketState : SessionState :=
  { initialState with socket := none }

/-- Witness for C8: sending a concrete frame while disconnected. -/
theorem c8_witness :
    send noSocketState sampleUserFrame =
      (noSocketState,
        { emitted := [], loggedErrors := ["WebSocket is not connected."] }) :=
  c8_send_disconnected_noop noSocketState sampleUserFrame rfl

/-- Claim C9: for an error payload carrying a string `message`, the
classifier suppresses exactly "websocket error" and "timeout"; any other
message is reported through `showChatError` with the message itself,
source "websocket", and `msg_id`/metadata extracted from the payload's
`data` object when present. -/
theorem c9_error_suppression (a : ErrorArg) (m : String)
    (hm : a.message = some (JsLeaf.str m)) :
    ((m = "websocket error" ∨ m = "timeout") →
      updateStatusWhenErrorMessagePresent (ErrorPayload.obj a) = none) ∧
    (m ≠ "websocket error" → m ≠ "timeout" →
      updateStatusWhenErrorMessagePresent (ErrorPayload.obj a) =
        some { message := m, source := "websocket", metadata := a.data,
               msgId :=
                 match a.data with
                 | some d =>
                   match d.msg_id with
                   | some (JsLeaf.str s) => some s
                   | _ => none
                 | none => none }) := by
  obtain ⟨msg, dat⟩ := a
  dsimp only at hm
  subst hm
  constructor
  · intro h
    have hcond : (m == "websocket error" || m == "timeout") = true := by
      rcases h with h | h <;> simp [h]
    simp [updateStatusWhenErrorMessagePresent, hcond]
  · intro h1 h2
    have hcond : (m == "websocket error" || m == "timeout") = false := by
      simp [h1, h2]
    simp [updateStatusWhenErrorMessagePresent, hcond]

/-- A domain error payload ("conversation not found") carrying a
`msg_id`. -/
def domainErrorArg : ErrorArg :=
  { message := some (JsLeaf.str "conversation not found"),
    data := some { msg_id := some (JsLeaf.str "M1"), extra := [] } }

/-- A transport timeout payload's fields. -/
def timeoutErrorArg : ErrorArg :=
  { message := some (JsLeaf.str "timeout"), data := none }

/-- Witness for C9: the concrete timeout payload is suppressed while the
concrete domain payload is reported with its `msg_id`. -/
theorem c9_witness :
    updateStatusWhenErrorMessagePresent (ErrorPayload.obj timeoutErrorArg) =
      none ∧
    updateStatusWhenErrorMessagePresent (ErrorPayload.obj domainErrorArg) =
      some { message := "conversation not found", source := "websocket",
             metadata := domainErrorArg.data, msgId := some "M1" } := by
  constructor
  · exact (c9_error_suppression timeoutErrorArg "timeout" rfl).1 (Or.inr rfl)
  · have h := (c9_error_suppression domainErrorArg "conversation not found" rfl).2
      (by decide) (by decide)
    rw [h]
    rfl

/-- Claim C10: `disconnect` leaves the event log, the replay queue,
`replayStatus` and the resume cursor untouched — it only clears the
socket ref and sets DISCONNECTED — and a second `disconnect` is a no-op
because the ref is already cleared. -/
theorem c10_disconnect_frame (st : SessionState) (hs : st.socket ≠ none) :
    (disconnect st).events = st.events ∧
    (disconnect st).messageQueue = st.messageQueue ∧
    (disconnect st).replayStatus = st.replayStatus ∧
    (disconnect st).lastEvent = st.lastEvent ∧
    (disconnect st).status = WsClientProviderStatus.DISCONNECTED ∧
    (disconnect st).socket = none ∧
    disconnect (disconnect st) = disconnect st := by
  cases h : st.socket with
  | none => exact absurd h hs
  | some sio => simp [disconnect, h]

/-- Witness for C10 at the concrete connected-with-log state. -/
theorem c10_witness :
    (disconnect completedState).events = completedState.events ∧
    (disconnect completedState).messageQueue = completedState.messageQueue ∧
    (disconnect completedState).replayStatus = completedState.replayStatus ∧
    (disconnect completedState).lastEvent = completedState.lastEvent ∧
    (disconnect completedState).status = WsClientProviderStatus.DISCONNECTED ∧
    (disconnect completedState).socket = none ∧
    disconnect (disconnect completedState) = disconnect completedState :=
  c10_disconnect_frame completedState (by decide)
